import Mathlib

/-!
Verification development for the multi-signal furniture classification engine
(`AIAnalyzer` in `ai_analyzer.py`): knowledge base, validator, the four signal
analyzers, fusion engine and batch aggregator, embedded shallowly over `ℚ`.

Modelling conventions:
- Python floats are modelled as rationals (`ℚ`); every comparison exercised by
  the theorems below is far from any float-rounding boundary.
- String payloads keep the source wording with accents stripped and numeric
  interpolations (for example the `:.1f` formatted values) elided, since no
  claim depends on the formatted numbers inside messages.
- Python dicts with a fixed key set are structures; the insertion-ordered
  dicts used as association tables are ordered association lists.
- Fallible Python code (index errors inside the per-component pipeline) is
  `Except String`; the catch-all boundary of `analyze_component` turns an
  `Except.error` into the `erro` result, mirroring the `try/except`.
-/

/-- Raw input record handed to `analyze_component` (the keys the source reads
via `componente.get`, plus the externally supplied volume that the source
never reads; `dimensoes` is the optional explicit dimension tuple, of
arbitrary arity as any user-supplied tuple can be). -/
structure RawComponent where
  nome : String
  area_m2 : ℚ
  volume_m3 : Option ℚ
  vertices : List (ℚ × ℚ × ℚ)
  dimensoes : Option (List ℚ)
  faces : List (List ℕ)
deriving DecidableEq

/-- `ComponenteAnalise` dataclass of the source. -/
structure ComponenteAnalise where
  nome : String
  area_m2 : ℚ
  volume_m3 : ℚ
  dimensoes : List ℚ
  vertices : List (ℚ × ℚ × ℚ)
  faces : List (List ℕ)
  centro_massa : ℚ × ℚ × ℚ
deriving DecidableEq

/-- Result of one signal analyzer (`tipo`, `confianca`, `motivo`, optional
`alternativas`). -/
structure SubResult where
  tipo : String
  confianca : ℚ
  motivo : String
  alternativas : List String := []
deriving DecidableEq

/-- Verdict of `_validate_component`. -/
structure ValidationResult where
  is_valid : Bool
  reason : String
  suggestions : List String
deriving DecidableEq

/-- The `detalhes` block attached to classification results: the four raw
analyses, plus the per-analysis scores in the fused branch. -/
structure Detalhes where
  scores_por_analise : Option (List (String × ℚ))
  semantic : SubResult
  geometric : SubResult
  dimensional : SubResult
  structural : SubResult
deriving DecidableEq

/-- Final classification result of `analyze_component`.  Branches of the
source that do not emit `alternativas` or `detalhes` leave the defaults. -/
structure ClassificationResult where
  tipo_detectado : String
  confianca : ℚ
  motivo : String
  sugestoes : List String
  alternativas : List String := []
  detalhes : Option Detalhes := none
deriving DecidableEq

/-- Knowledge-base entry (`_build_knowledge_base`).  The source dict for the
shelf type stores its volume range under the misspelled key `volume_tipica`,
so that entry has `volume_tipico := none` and the range is kept in the
separate `volume_tipica` field, exactly as the dict does. -/
structure KBEntry where
  largura : ℚ × ℚ
  altura : ℚ × ℚ
  profundidade : ℚ × ℚ
  altura_largura : ℚ × ℚ
  profundidade_largura : ℚ × ℚ
  area_tipica : ℚ × ℚ
  volume_tipico : Option (ℚ × ℚ)
  volume_tipica : Option (ℚ × ℚ) := none
  keywords : List String
deriving DecidableEq

def armarioEntry : KBEntry :=
  { largura := (400, 1200), altura := (600, 2400), profundidade := (300, 600),
    altura_largura := (1/2, 4), profundidade_largura := (1/4, 3/2),
    area_tipica := (1/2, 8), volume_tipico := some (1/10, 3),
    keywords := ["armario", "cabinet", "wardrobe", "closet", "guarda"] }

def despenseiroEntry : KBEntry :=
  { largura := (300, 1000), altura := (1800, 2600), profundidade := (300, 600),
    altura_largura := (9/5, 8), profundidade_largura := (3/10, 2),
    area_tipica := (1, 6), volume_tipico := some (1/2, 4),
    keywords := ["despenseiro", "pantry", "tall", "alto", "coluna"] }

def balcaoEntry : KBEntry :=
  { largura := (300, 1200), altura := (700, 900), profundidade := (400, 700),
    altura_largura := (3/10, 2), profundidade_largura := (1/2, 2),
    area_tipica := (3/10, 3), volume_tipico := some (1/5, 2),
    keywords := ["balcao", "counter", "base", "inferior", "bancada"] }

def gaveteiroEntry : KBEntry :=
  { largura := (300, 800), altura := (200, 800), profundidade := (300, 600),
    altura_largura := (1/4, 2), profundidade_largura := (1/2, 2),
    area_tipica := (1/5, 2), volume_tipico := some (1/10, 1),
    keywords := ["gaveteiro", "drawer", "gaveta", "chest"] }

def prateleiraEntry : KBEntry :=
  { largura := (200, 1200), altura := (15, 50), profundidade := (200, 600),
    altura_largura := (1/100, 1/4), profundidade_largura := (1/5, 3),
    area_tipica := (1/10, 2), volume_tipico := none,
    volume_tipica := some (1/100, 1/10),
    keywords := ["prateleira", "shelf", "estante", "divider"] }

def portaEntry : KBEntry :=
  { largura := (300, 800), altura := (400, 2000), profundidade := (15, 25),
    altura_largura := (1, 6), profundidade_largura := (1/50, 1/10),
    area_tipica := (1/5, 3/2), volume_tipico := some (1/200, 1/20),
    keywords := ["porta", "door", "folha", "leaf"] }

def gavetaEntry : KBEntry :=
  { largura := (200, 800), altura := (80, 300), profundidade := (300, 600),
    altura_largura := (1/10, 3/2), profundidade_largura := (1/2, 3),
    area_tipica := (1/10, 3/2), volume_tipico := some (1/20, 1/2),
    keywords := ["gaveta", "drawer", "box", "caixa"] }

/-- The knowledge base in its source (dict insertion) order. -/
def kbList : List (String × KBEntry) :=
  [("armario", armarioEntry), ("despenseiro", despenseiroEntry),
   ("balcao", balcaoEntry), ("gaveteiro", gaveteiroEntry),
   ("prateleira", prateleiraEntry), ("porta", portaEntry),
   ("gaveta", gavetaEntry)]

def keywordsMarcenaria : List String :=
  ["armario", "cabinet", "wardrobe", "closet", "guarda",
   "despenseiro", "pantry", "coluna", "torre",
   "balcao", "counter", "base", "inferior",
   "gaveteiro", "drawer", "gaveta", "chest",
   "prateleira", "shelf", "estante",
   "porta", "door", "folha",
   "movel", "furniture", "mobile"]

def keywordsNaoMarcenaria : List String :=
  ["wall", "parede", "muro",
   "floor", "piso", "chao",
   "ceiling", "teto", "laje",
   "window", "janela", "vidro",
   "door_frame", "batente", "marco",
   "pipe", "tubo", "cano",
   "wire", "fio", "cabo",
   "light", "luz", "lampada",
   "outlet", "tomada", "interruptor"]

def keywordsEletrodomesticos : List String :=
  ["geladeira", "refrigerator", "fridge",
   "fogao", "stove", "cooktop",
   "microondas", "microwave",
   "lava", "dishwasher", "washing",
   "forno", "oven"]

/-- Python substring containment (`needle in hay`). -/
def hasSub : List Char → List Char → Bool
  | [], needle => needle.isEmpty
  | c :: t, needle => needle.isPrefixOf (c :: t) || hasSub t needle

/-- Helper for `keyword in nome_lower` over strings. -/
def kwIn (nomeLower kw : String) : Bool :=
  hasSub nomeLower.toList kw.toList

/-- Python `min(dims)` / `max(dims)` over a dimension tuple (the source only
evaluates these on non-empty tuples; the empty case is arbitrary). -/
def pyMin : List ℚ → ℚ
  | [] => 0
  | d :: ds => ds.foldl min d

def pyMax : List ℚ → ℚ
  | [] => 0
  | d :: ds => ds.foldl max d

/-- Geometric pattern entry of `_build_geometric_patterns`. -/
structure GeometricPattern where
  nome : String
  condicao : List ℚ → Bool
  tipos_possiveis : List String

/-- The geometric pattern table, in source (dict insertion) order.  The
`muito_plano` ratio uses total division; the source can only divide by zero
there for a degenerate all-zero dimension tuple, which validation rejects
before this analyzer runs (claim about that unreachability is proved below). -/
def geometricPatterns : List GeometricPattern :=
  [{ nome := "muito_plano",
     condicao := fun dims => decide (pyMin dims / pyMax dims < 1/20),
     tipos_possiveis := ["prateleira", "porta", "tampo"] },
   { nome := "muito_alto",
     condicao := fun dims => decide (1800 < dims.getD 1 0),
     tipos_possiveis := ["despenseiro", "armario"] },
   { nome := "altura_bancada",
     condicao := fun dims => decide (700 ≤ dims.getD 1 0 ∧ dims.getD 1 0 ≤ 900),
     tipos_possiveis := ["balcao", "gaveteiro"] },
   { nome := "muito_baixo",
     condicao := fun dims => decide (dims.getD 1 0 < 400),
     tipos_possiveis := ["gaveta", "prateleira", "rodape"] },
   { nome := "proporcao_gaveta",
     condicao := fun dims =>
       decide (dims.getD 1 0 < dims.getD 2 0 ∧ dims.getD 1 0 < dims.getD 0 0),
     tipos_possiveis := ["gaveta", "gaveteiro"] }]

/-- Bounding-box extents of a non-empty vertex list (`max_coords - min_coords`
per axis, as a 3-element dimension tuple). -/
def bboxDims : List (ℚ × ℚ × ℚ) → List ℚ
  | [] => []
  | v :: vs =>
    let maxs := vs.foldl
      (fun a p => (max a.1 p.1, max a.2.1 p.2.1, max a.2.2 p.2.2)) v
    let mins := vs.foldl
      (fun a p => (min a.1 p.1, min a.2.1 p.2.1, min a.2.2 p.2.2)) v
    [maxs.1 - mins.1, maxs.2.1 - mins.2.1, maxs.2.2 - mins.2.2]

/-- Mean of the vertices (`np.mean(vertices_array, axis=0)`). -/
def centroMassaOf : List (ℚ × ℚ × ℚ) → ℚ × ℚ × ℚ
  | [] => (0, 0, 0)
  | v :: vs =>
    let n : ℚ := ((vs.length + 1 : ℕ) : ℚ)
    let sums := vs.foldl
      (fun a p => (a.1 + p.1, a.2.1 + p.2.1, a.2.2 + p.2.2)) v
    (sums.1 / n, sums.2.1 / n, sums.2.2 / n)

/-- `_convert_to_analysis_structure`: bounding-box dimensions when vertices
are present, otherwise the supplied dimensions or the `(100, 100, 100)`
default; the volume is always recomputed from the first three dimension
entries (indexing a shorter supplied tuple raises, which the embedding
reports as the corresponding `Except.error`). -/
def convertToAnalysisE (componente : RawComponent) : Except String ComponenteAnalise :=
  let (dimensoes, centro_massa) :=
    match componente.vertices with
    | [] => (componente.dimensoes.getD [100, 100, 100], ((0 : ℚ), (0 : ℚ), (0 : ℚ)))
    | v :: vs => (bboxDims (v :: vs), centroMassaOf (v :: vs))
  match dimensoes with
  | d0 :: d1 :: d2 :: rest =>
    Except.ok
      { nome := componente.nome, area_m2 := componente.area_m2,
        volume_m3 := d0 * d1 * d2 / 1000000000,
        dimensoes := d0 :: d1 :: d2 :: rest,
        vertices := componente.vertices, faces := componente.faces,
        centro_massa := centro_massa }
  | _ => Except.error "tuple index out of range"

/-- `_validate_component`: the ordered short-circuit checks.  The aspect
ratio is computed only after the min-dimension check has passed, and the
density checks only under `area > 0`, exactly as in the source. -/
def validateComponentE (comp : ComponenteAnalise) : Except String ValidationResult :=
  match comp.dimensoes with
  | [] => Except.error "max arg is an empty sequence"
  | d :: ds =>
    let max_dim := ds.foldl max d
    let min_dim := ds.foldl min d
    if 5000 < max_dim then
      Except.ok { is_valid := false, reason := "Dimensao muito grande",
                  suggestions := ["Verificar escala do arquivo", "Pode ser elemento estrutural"] }
    else if min_dim < 10 then
      Except.ok { is_valid := false, reason := "Dimensao muito pequena",
                  suggestions := ["Verificar se nao e detalhe", "Pode ser ruido na geometria"] }
    else if 25 < comp.area_m2 then
      Except.ok { is_valid := false, reason := "Area muito grande",
                  suggestions := ["Provavelmente parede ou piso", "Filtrar elementos estruturais"] }
    else if comp.area_m2 < 1/100 then
      Except.ok { is_valid := false, reason := "Area muito pequena",
                  suggestions := ["Pode ser acessorio", "Verificar relevancia"] }
    else
      let proporcao := max_dim / min_dim
      if 100 < proporcao then
        Except.ok { is_valid := false, reason := "Proporcao muito extrema",
                    suggestions := ["Pode ser elemento linear", "Verificar geometria"] }
      else if 0 < comp.area_m2 then
        let densidade := comp.volume_m3 / comp.area_m2
        if densidade < 1/10 then
          Except.ok { is_valid := false, reason := "Densidade muito baixa",
                      suggestions := ["Pode ser elemento muito fino", "Verificar calculo de volume"] }
        else if 2 < densidade then
          Except.ok { is_valid := false, reason := "Densidade muito alta",
                      suggestions := ["Pode ser elemento muito espesso", "Verificar geometria"] }
        else
          Except.ok { is_valid := true, reason := "Componente valido", suggestions := [] }
      else
        Except.ok { is_valid := true, reason := "Componente valido", suggestions := [] }

/-- `_analyze_semantic`: keyword classification over the case-folded name. -/
def analyzeSemantic (comp : ComponenteAnalise) : SubResult :=
  let nome_lower := comp.nome.toLower
  let is_marcenaria := keywordsMarcenaria.any (fun kw => kwIn nome_lower kw)
  let is_nao_marcenaria := keywordsNaoMarcenaria.any (fun kw => kwIn nome_lower kw)
  let is_eletrodomestico := keywordsEletrodomesticos.any (fun kw => kwIn nome_lower kw)
  if is_nao_marcenaria || is_eletrodomestico then
    { tipo := "nao_marcenaria", confianca := 9/10,
      motivo := "Nome indica elemento nao-marcenaria" }
  else
    match kbList.find? (fun ti => ti.2.keywords.any (fun kw => kwIn nome_lower kw)) with
    | some ti => { tipo := ti.1, confianca := 4/5, motivo := "Nome indica " ++ ti.1 }
    | none =>
      if is_marcenaria then
        { tipo := "armario", confianca := 1/2, motivo := "Nome indica marcenaria generica" }
      else
        { tipo := "indefinido", confianca := 1/10, motivo := "Nome nao conclusivo" }

/-- `_analyze_geometry`: first matching pattern in table order wins. -/
def analyzeGeometry (comp : ComponenteAnalise) : SubResult :=
  let matched := geometricPatterns.filter (fun p => p.condicao comp.dimensoes)
  match matched with
  | [] =>
    { tipo := "indefinido", confianca := 1/5,
      motivo := "Nenhum padrao geometrico identificado" }
  | best :: _ =>
    { tipo := best.tipos_possiveis.headD "", confianca := 7/10,
      motivo := "Padrao geometrico: " ++ best.nome,
      alternativas := best.tipos_possiveis.drop 1 }

/-- Inclusive range check `lo <= x <= hi` used throughout the dimensional
analyzer. -/
def inRange (r : ℚ × ℚ) (x : ℚ) : Bool :=
  decide (r.1 ≤ x ∧ x ≤ r.2)

/-- Weighted score and matched-check reasons that `_analyze_dimensions`
computes for one knowledge-base type.  Note the volume bonus is applied only
when the entry carries the correctly spelled `volume_tipico` key. -/
def scoreFor (info : KBEntry) (comp : ComponenteAnalise) : ℚ × List String :=
  let d0 := comp.dimensoes.getD 0 0
  let d1 := comp.dimensoes.getD 1 0
  let d2 := comp.dimensoes.getD 2 0
  let dimHits : List String :=
    (if inRange info.largura d0 then ["largura tipica"] else []) ++
    (if inRange info.altura d1 then ["altura tipica"] else []) ++
    (if inRange info.profundidade d2 then ["profundidade tipica"] else [])
  let score1 : ℚ := ((dimHits.length : ℚ) / 3) * (2/5)
  let altura_largura := if 0 < d0 then d1 / d0 else 0
  let prof_largura := if 0 < d0 then d2 / d0 else 0
  let propHits : List String :=
    (if inRange info.altura_largura altura_largura then
      ["proporcao altura/largura tipica"] else []) ++
    (if inRange info.profundidade_largura prof_largura then
      ["proporcao profundidade/largura tipica"] else [])
  let score2 : ℚ := ((propHits.length : ℚ) / 2) * (3/10)
  let areaHit := inRange info.area_tipica comp.area_m2
  let score3 : ℚ := if areaHit then 1/5 else 0
  let volHit :=
    match info.volume_tipico with
    | some r => inRange r comp.volume_m3
    | none => false
  let score4 : ℚ := if volHit then 1/10 else 0
  let reasons := dimHits ++ propHits ++
    (if areaHit then ["area tipica"] else []) ++
    (if volHit then ["volume tipico"] else [])
  (score1 + score2 + score3 + score4, reasons)

/-- All knowledge-base types with their scores, in knowledge-base order. -/
def scoredTypes (comp : ComponenteAnalise) : List (String × ℚ × List String) :=
  kbList.map (fun ti => (ti.1, scoreFor ti.2 comp))

/-- Descending-by-score order used by the dimensional analyzer (Python
`sort(key=score, reverse=True)`, which is stable). -/
def scoreGE (a b : String × ℚ × List String) : Prop :=
  b.2.1 ≤ a.2.1

instance : DecidableRel scoreGE :=
  fun a b => inferInstanceAs (Decidable (b.2.1 ≤ a.2.1))

instance : IsTotal (String × ℚ × List String) scoreGE :=
  ⟨fun a b => le_total b.2.1 a.2.1⟩

instance : IsTrans (String × ℚ × List String) scoreGE :=
  ⟨fun _ _ _ h1 h2 => le_trans h2 h1⟩

/-- The surviving matches (`score > 0.3`), ranked descending by score;
`List.insertionSort` with `scoreGE` is a stable descending sort, matching
Python list sorting. -/
def rankedMatches (comp : ComponenteAnalise) : List (String × ℚ × List String) :=
  List.insertionSort scoreGE
    ((scoredTypes comp).filter (fun x => decide (3/10 < x.2.1)))

/-- `_analyze_dimensions`: top surviving type with `min(score, 0.9)` and up
to two runner-up alternatives, else `indefinido` with confidence 0.1. -/
def analyzeDimensions (comp : ComponenteAnalise) : SubResult :=
  match rankedMatches comp with
  | [] =>
    { tipo := "indefinido", confianca := 1/10,
      motivo := "Dimensoes nao compativeis com tipos conhecidos" }
  | best :: rest =>
    { tipo := best.1, confianca := min best.2.1 (9/10),
      motivo := "Dimensoes compativeis: " ++ String.intercalate ", " best.2.2,
      alternativas := (rest.take 2).map (fun x => x.1) }

/-- `_analyze_structure`: mesh-complexity bucket (faces over vertices). -/
def analyzeStructure (comp : ComponenteAnalise) : SubResult :=
  let num_vertices := comp.vertices.length
  let num_faces := comp.faces.length
  let complexidade : ℚ :=
    if 0 < num_vertices then (num_faces : ℚ) / (num_vertices : ℚ) else 0
  if 3 < complexidade then
    { tipo := "complexo", confianca := 3/5, motivo := "Geometria complexa" }
  else if 3/2 < complexidade then
    { tipo := "medio", confianca := 1/2, motivo := "Geometria media" }
  else
    { tipo := "simples", confianca := 2/5, motivo := "Geometria simples" }

/-- Per-candidate accumulation record used by `_combine_analyses`. -/
structure CandInfo where
  scores : List (String × ℚ)
  reasons : List String
  total_score : ℚ
deriving DecidableEq

/-- `self.confidence_weights.get(analysis_type, 0.1)`. -/
def confidenceWeight (analysisType : String) : ℚ :=
  if analysisType = "geometric" then 2/5
  else if analysisType = "dimensional" then 3/10
  else if analysisType = "semantic" then 1/5
  else if analysisType = "structural" then 1/10
  else 1/10

/-- Insertion-ordered accumulation of one analysis vote into the candidate
table (Python dict keyed by type). -/
def addCandidate : List (String × CandInfo) → String → String → ℚ → String →
    List (String × CandInfo)
  | [], analysisType, tipo, score, reason =>
    [(tipo, { scores := [(analysisType, score)], reasons := [reason],
              total_score := score })]
  | (t, info) :: rest, analysisType, tipo, score, reason =>
    if t = tipo then
      (t, { scores := info.scores ++ [(analysisType, score)],
            reasons := info.reasons ++ [reason],
            total_score := info.total_score + score }) :: rest
    else
      (t, info) :: addCandidate rest analysisType tipo score reason

/-- Candidate collection loop of `_combine_analyses` over the three voting
analyses. -/
def collectCandidates (analyses : List (String × SubResult)) :
    List (String × CandInfo) :=
  analyses.foldl
    (fun cands pair =>
      if pair.2.tipo ∈ ["indefinido", "nao_marcenaria", "invalido", "erro"] then
        cands
      else
        addCandidate cands pair.1 pair.2.tipo
          (pair.2.confianca * confidenceWeight pair.1)
          (pair.1 ++ ": " ++ pair.2.motivo))
    []

/-- Python `max(items, key=total_score)`: the first maximal entry. -/
def firstMaxCand (cands : List (String × CandInfo)) : Option (String × CandInfo) :=
  cands.foldl
    (fun acc x =>
      match acc with
      | none => some x
      | some b => if b.2.total_score < x.2.total_score then some x else some b)
    none

/-- Descending order on accumulated candidate scores, for the alternatives
ranking (`sorted(..., reverse=True)`, stable). -/
def candGE (a b : String × CandInfo) : Prop :=
  b.2.total_score ≤ a.2.total_score

instance : DecidableRel candGE :=
  fun a b => inferInstanceAs (Decidable (b.2.total_score ≤ a.2.total_score))

instance : IsTotal (String × CandInfo) candGE :=
  ⟨fun a b => le_total b.2.total_score a.2.total_score⟩

instance : IsTrans (String × CandInfo) candGE :=
  ⟨fun _ _ _ h1 h2 => le_trans h2 h1⟩

/-- Python `round(x, 3)`.  The source rounds a float with round-half-to-even;
the rationals produced here never land exactly on a half-thousandth in any
theorem below, so round-half-up is an equivalent model on every exercised
value. -/
def round3 (q : ℚ) : ℚ :=
  (⌊q * 1000 + 1/2⌋ : ℤ) / 1000

/-- `_combine_analyses`: the fusion engine. -/
def combineAnalyses (semantic geometric dimensional structural : SubResult) :
    ClassificationResult :=
  let candidates := collectCandidates
    [("semantic", semantic), ("geometric", geometric), ("dimensional", dimensional)]
  if semantic.tipo = "nao_marcenaria" then
    { tipo_detectado := "nao_marcenaria", confianca := semantic.confianca,
      motivo := semantic.motivo,
      sugestoes := ["Filtrar este elemento", "Nao incluir no orcamento"],
      detalhes := some { scores_por_analise := none, semantic := semantic,
                         geometric := geometric, dimensional := dimensional,
                         structural := structural } }
  else
    match firstMaxCand candidates with
    | none =>
      { tipo_detectado := "indefinido", confianca := 1/5,
        motivo := "Nao foi possivel classificar com confianca",
        sugestoes := ["Verificar nome do objeto", "Verificar dimensoes",
                      "Classificar manualmente"],
        detalhes := some { scores_por_analise := none, semantic := semantic,
                           geometric := geometric, dimensional := dimensional,
                           structural := structural } }
    | some best =>
      let confianca_final := min best.2.total_score (19/20)
      let sugestoes :=
        (if confianca_final < 1/2 then ["Baixa confianca - verificar manualmente"] else []) ++
        (if confianca_final < 7/10 then ["Considerar classificacao alternativa"] else [])
      let ranked := List.insertionSort candGE candidates
      { tipo_detectado := best.1, confianca := round3 confianca_final,
        motivo := String.intercalate "; " best.2.reasons,
        sugestoes := sugestoes,
        alternativas := ((ranked.drop 1).take 2).map (fun x => x.1),
        detalhes := some { scores_por_analise := some best.2.scores,
                           semantic := semantic, geometric := geometric,
                           dimensional := dimensional, structural := structural } }

/-- The fallible body of `analyze_component` (everything inside the `try`). -/
def analyzeComponentE (componente : RawComponent) :
    Except String ClassificationResult :=
  match convertToAnalysisE componente with
  | Except.error e => Except.error e
  | Except.ok comp =>
    match validateComponentE comp with
    | Except.error e => Except.error e
    | Except.ok validation =>
      if !validation.is_valid then
        Except.ok
          { tipo_detectado := "invalido", confianca := 0,
            motivo := validation.reason, sugestoes := validation.suggestions }
      else
        Except.ok
          (combineAnalyses (analyzeSemantic comp) (analyzeGeometry comp)
            (analyzeDimensions comp) (analyzeStructure comp))

/-- `analyze_component` with its catch-all fault boundary: a fault in the
pipeline becomes an `erro` result carrying the fault message. -/
def analyzeComponent (componente : RawComponent) : ClassificationResult :=
  match analyzeComponentE componente with
  | Except.ok r => r
  | Except.error e =>
    { tipo_detectado := "erro", confianca := 0,
      motivo := "Erro na analise: " ++ e,
      sugestoes := ["Verificar formato do arquivo", "Tentar novamente"] }

/-- Batch statistics record of `analyze_batch`. -/
structure Estatisticas where
  total : ℕ
  validos : ℕ
  marcenaria : ℕ
  nao_marcenaria : ℕ
  indefinidos : ℕ
  tipos_detectados : List (String × ℕ)
  confianca_media : ℚ
deriving DecidableEq

/-- Result of `analyze_batch`. -/
structure BatchResult where
  resultados : List ClassificationResult
  estatisticas : Estatisticas
  insights : List String
  recomendacoes : List String
deriving DecidableEq

/-- `tipo not in ['invalido', 'erro']` — the validity filter used both for
the `validos` counter and for the mean-confidence list comprehension. -/
def isValidResult (r : ClassificationResult) : Bool :=
  !(["invalido", "erro"].contains r.tipo_detectado)

/-- Increment of the per-type frequency dict. -/
def bumpTipo : List (String × ℕ) → String → List (String × ℕ)
  | [], t => [(t, 1)]
  | (s, n) :: rest, t =>
    if s = t then (s, n + 1) :: rest else (s, n) :: bumpTipo rest t

/-- One iteration of the statistics loop in `analyze_batch`. -/
def updateStats (st : Estatisticas) (r : ClassificationResult) : Estatisticas :=
  if isValidResult r then
    let st := { st with validos := st.validos + 1 }
    if r.tipo_detectado = "nao_marcenaria" then
      { st with nao_marcenaria := st.nao_marcenaria + 1 }
    else if r.tipo_detectado = "indefinido" then
      { st with indefinidos := st.indefinidos + 1 }
    else
      { st with marcenaria := st.marcenaria + 1,
                tipos_detectados := bumpTipo st.tipos_detectados r.tipo_detectado }
  else st

/-- Python `max(items, key=count)` over the type-frequency dict: first
maximal entry. -/
def firstMaxTipo (l : List (String × ℕ)) : Option (String × ℕ) :=
  l.foldl
    (fun acc x =>
      match acc with
      | none => some x
      | some b => if b.2 < x.2 then some x else some b)
    none

/-- `_generate_insights` (numeric interpolations elided from the strings). -/
def generateInsights (stats : Estatisticas) : List String :=
  let l1 : List String :=
    if 0 < stats.total then
      let taxa_validos : ℚ := (stats.validos : ℚ) / (stats.total : ℚ)
      if 9/10 < taxa_validos then ["Excelente qualidade"]
      else if 7/10 < taxa_validos then ["Boa qualidade"]
      else ["Qualidade baixa"]
    else []
  let l2 : List String :=
    if 0 < stats.validos then
      let taxa_marcenaria : ℚ := (stats.marcenaria : ℚ) / (stats.validos : ℚ)
      if 4/5 < taxa_marcenaria then ["Arquivo bem preparado"]
      else if 1/2 < taxa_marcenaria then ["Arquivo misto"]
      else ["Muitos elementos nao-marcenaria"]
    else []
  let l3 : List String :=
    if 4/5 < stats.confianca_media then ["Alta confianca"]
    else if 3/5 < stats.confianca_media then ["Confianca moderada"]
    else ["Baixa confianca"]
  let l4 : List String :=
    match firstMaxTipo stats.tipos_detectados with
    | some t => ["Tipo mais comum: " ++ t.1]
    | none => []
  l1 ++ l2 ++ l3 ++ l4

/-- `_generate_recommendations` (numeric interpolations elided). -/
def generateRecommendations (stats : Estatisticas) : List String :=
  let r1 : List String :=
    if 0 < stats.total ∧ (stats.validos : ℚ) / (stats.total : ℚ) < 7/10 then
      ["Melhorar preparacao do arquivo 3D", "Verificar escala e unidades"]
    else []
  let r2 : List String :=
    if 0 < stats.validos ∧ (stats.marcenaria : ℚ) / (stats.validos : ℚ) < 1/2 then
      ["Remover elementos nao-marcenaria do SketchUp",
       "Manter apenas moveis e componentes de madeira"]
    else []
  let r3 : List String :=
    if stats.confianca_media < 3/5 then
      ["Usar nomes mais descritivos nos objetos",
       "Verificar se dimensoes estao realistas"]
    else []
  let r4 : List String :=
    if (stats.marcenaria : ℚ) * (3/10) < (stats.indefinidos : ℚ) then
      ["Revisar objetos indefinidos manualmente",
       "Adicionar tags ou grupos no SketchUp"]
    else []
  r1 ++ r2 ++ r3 ++ r4

/-- `analyze_batch`: per-component pipeline over the input list, statistics
accumulation, and the mean confidence over the valid results. -/
def analyzeBatch (componentes : List RawComponent) : BatchResult :=
  let resultados := componentes.map analyzeComponent
  let stats1 := resultados.foldl updateStats
    { total := componentes.length, validos := 0, marcenaria := 0,
      nao_marcenaria := 0, indefinidos := 0, tipos_detectados := [],
      confianca_media := 0 }
  let stats2 :=
    if 0 < stats1.validos then
      let confiancas := (resultados.filter isValidResult).map (fun r => r.confianca)
      { stats1 with confianca_media := confiancas.sum / (confiancas.length : ℚ) }
    else stats1
  { resultados := resultados, estatisticas := stats2,
    insights := generateInsights stats2,
    recomendacoes := generateRecommendations stats2 }

/-! Concrete components used by the claim theorems and witnesses below. -/

/-- The spec scenario component: name `Cabinet_Upper_Kitchen`, explicit
dimensions `(800, 600, 350)` mm, area 2.5 m². -/
def cabinetUpperKitchen : RawComponent :=
  { nome := "Cabinet_Upper_Kitchen", area_m2 := 5/2, volume_m3 := none,
    vertices := [], dimensoes := some [800, 600, 350], faces := [] }

/-- A zero-area component whose dimensions pass every dimension check. -/
def zeroAreaComp : ComponenteAnalise :=
  { nome := "Componente", area_m2 := 0, volume_m3 := 1/1000,
    dimensoes := [100, 100, 100], vertices := [], faces := [],
    centro_massa := (0, 0, 0) }

/-- A shelf-shaped component whose volume 0.02 m³ lies inside the shelf
volume range recorded under the misspelled knowledge-base key. -/
def shelfComp : ComponenteAnalise :=
  { nome := "Prateleira_1", area_m2 := 1/2, volume_m3 := 1/50,
    dimensoes := [1000, 40, 500], vertices := [], faces := [],
    centro_massa := (0, 0, 0) }

/-- A component for which the cabinet type scores exactly 0.3 in the
dimensional analyzer (both proportions match, nothing else does). -/
def borderComp : ComponenteAnalise :=
  { nome := "X", area_m2 := 10, volume_m3 := 6, dimensoes := [2000, 3000, 1000],
    vertices := [], faces := [], centro_massa := (0, 0, 0) }

/-- A cube-like component on which every knowledge-base type scores at most
0.3, so the dimensional analyzer keeps no match. -/
def c5wComp : ComponenteAnalise :=
  { nome := "Cubo", area_m2 := 20, volume_m3 := 64,
    dimensoes := [4000, 4000, 4000], vertices := [], faces := [],
    centro_massa := (0, 0, 0) }

/-- The spec scenario `Wall_Partition` component (plausible dimensions and
an area that passes validation). -/
def wallRaw : RawComponent :=
  { nome := "Wall_Partition", area_m2 := 1, volume_m3 := none,
    vertices := [], dimensoes := some [800, 600, 350], faces := [] }

/-- The analysis structure `wallRaw` converts to. -/
def wallComp : ComponenteAnalise :=
  { nome := "Wall_Partition", area_m2 := 1, volume_m3 := 21/125,
    dimensoes := [800, 600, 350], vertices := [], faces := [],
    centro_massa := (0, 0, 0) }

/-- A malformed raw record: an explicitly supplied empty dimension tuple,
whose indexing faults inside the conversion step. -/
def badRaw : RawComponent :=
  { nome := "Bad", area_m2 := 0, volume_m3 := none, vertices := [],
    dimensoes := some [], faces := [] }

/-- A raw record with no vertices and no supplied dimensions. -/
def c7raw : RawComponent :=
  { nome := "Componente", area_m2 := 0, volume_m3 := none, vertices := [],
    dimensoes := none, faces := [] }

/-- The analysis structure `c7raw` converts to (default dimensions). -/
def c7comp : ComponenteAnalise :=
  { nome := "Componente", area_m2 := 0, volume_m3 := 1/1000,
    dimensoes := [100, 100, 100], vertices := [], faces := [],
    centro_massa := (0, 0, 0) }

/-- Two components with the same case-folded name and entirely different
geometry. -/
def c9compA : ComponenteAnalise :=
  { nome := "Porta_a", area_m2 := 1/2, volume_m3 := 1/10,
    dimensoes := [600, 150, 450], vertices := [], faces := [],
    centro_massa := (0, 0, 0) }

def c9compB : ComponenteAnalise :=
  { nome := "Porta_a", area_m2 := 7, volume_m3 := 3,
    dimensoes := [100, 2000, 30], vertices := [(1, 2, 3)],
    faces := [[0, 1, 2]], centro_massa := (5, 5, 5) }

/-- A component that passes validation, used to witness the division-guard
claim. -/
def c10comp : ComponenteAnalise :=
  { nome := "Componente", area_m2 := 1, volume_m3 := 21/125,
    dimensoes := [800, 600, 350], vertices := [], faces := [],
    centro_massa := (0, 0, 0) }

/-! Helper lemmas (shared). -/

/-- A left fold of `min` never exceeds its initial value. -/
theorem foldl_min_le_start (ds : List ℚ) (d : ℚ) : ds.foldl min d ≤ d := by
  induction ds generalizing d with
  | nil => exact le_refl d
  | cons x xs ih => exact le_trans (ih (min d x)) (min_le_left d x)

/-- A left fold of `max` is at least its initial value. -/
theorem start_le_foldl_max (ds : List ℚ) (d : ℚ) : d ≤ ds.foldl max d := by
  induction ds generalizing d with
  | nil => exact le_refl d
  | cons x xs ih => exact le_trans (le_max_left d x) (ih (max d x))

/-! Claim theorems. -/

/-- Claim C1, counterexample: on the `Cabinet_Upper_Kitchen` component with
dimensions `(800, 600, 350)` mm and area 2.5 m², `analyze_component` does
not return the cabinet type with confidence above 0.5 — its detected type
is `invalido`. -/
theorem c1_counterexample :
    (analyzeComponent cabinetUpperKitchen).tipo_detectado = "invalido" ∧
    ¬((analyzeComponent cabinetUpperKitchen).tipo_detectado = "armario" ∧
      1/2 < (analyzeComponent cabinetUpperKitchen).confianca) := by
  with_unfolding_all decide

/-- Claim C1, amended: on that component `analyze_component` returns the
`invalido` result with confidence 0.0, because the density check rejects it
(volume 0.168 m³ over area 2.5 m² gives density 0.0672, below the 0.1
bound), so the classification never reaches the analyzers. -/
theorem c1_amended :
    analyzeComponent cabinetUpperKitchen =
      { tipo_detectado := "invalido", confianca := 0,
        motivo := "Densidade muito baixa",
        sugestoes := ["Pode ser elemento muito fino", "Verificar calculo de volume"],
        alternativas := [], detalhes := none } ∧
    (800 * 600 * 350 / 1000000000 : ℚ) / (5/2) < 1/10 := by
  constructor
  · with_unfolding_all rfl
  · norm_num

/-- Claim C2, counterexample: a component with area exactly 0 whose
dimensions pass the size checks is rejected by the validator with the
small-area reason — the lower area bound check is not guarded by
`area > 0`. -/
theorem c2_counterexample :
    validateComponentE zeroAreaComp =
      Except.ok { is_valid := false, reason := "Area muito pequena",
                  suggestions := ["Pode ser acessorio", "Verificar relevancia"] } ∧
    zeroAreaComp.area_m2 = 0 := by
  exact ⟨by with_unfolding_all rfl, rfl⟩

/-- Claim C2, amended: the lower area bound check fires whenever the area is
below 0.01 m², including an unknown (zero) area; only the density check is
conditional on `area > 0`.  Every component whose dimensions pass the size
and smallness checks, whose area passes the maximum-area check, and whose
area is below the lower bound is declared invalid with the small-area
reason. -/
theorem c2_amended (comp : ComponenteAnalise) (d : ℚ) (ds : List ℚ)
    (hdims : comp.dimensoes = d :: ds)
    (h1 : ds.foldl max d ≤ 5000) (h2 : 10 ≤ ds.foldl min d)
    (h3 : comp.area_m2 ≤ 25) (h4 : comp.area_m2 < 1/100) :
    validateComponentE comp =
      Except.ok { is_valid := false, reason := "Area muito pequena",
                  suggestions := ["Pode ser acessorio", "Verificar relevancia"] } := by
  simp only [validateComponentE, hdims]
  rw [if_neg (not_lt.mpr h1), if_neg (not_lt.mpr h2), if_neg (not_lt.mpr h3), if_pos h4]

/-- Claim C2, witness for the amended theorem at the zero-area component. -/
theorem c2_witness :
    validateComponentE zeroAreaComp =
      Except.ok { is_valid := false, reason := "Area muito pequena",
                  suggestions := ["Pode ser acessorio", "Verificar relevancia"] } :=
  c2_amended zeroAreaComp 100 [100, 100] rfl
    (by with_unfolding_all decide) (by with_unfolding_all decide)
    (by with_unfolding_all decide) (by with_unfolding_all decide)

/-- Claim C3, code divergence: on a shelf component whose volume 0.02 m³
lies inside the shelf volume range `(0.01, 0.1)` — a range the knowledge
base stores under the misspelled key `volume_tipica` — the dimensional
analyzer scores the shelf type 0.9, not 1.0: the 0.1 volume bonus is never
applied to the shelf type because the lookup uses the key
`volume_tipico`. -/
theorem c3_code_divergence :
    (scoreFor prateleiraEntry shelfComp).1 = 9/10 ∧
    prateleiraEntry.volume_tipico = none ∧
    prateleiraEntry.volume_tipica = some (1/100, 1/10) ∧
    1/100 ≤ shelfComp.volume_m3 ∧ shelfComp.volume_m3 ≤ 1/10 := by
  with_unfolding_all decide

/-- Claim C9: the semantic analyzer is a function of the case-folded
component name alone — two components whose names case-fold identically
receive identical semantic results, whatever their geometry. -/
theorem c9_semantic_name_only (a b : ComponenteAnalise)
    (h : a.nome.toLower = b.nome.toLower) :
    analyzeSemantic a = analyzeSemantic b := by
  simp only [analyzeSemantic, h]

/-- Claim C9, witness: same name, completely different areas, volumes,
dimensions, vertices and faces. -/
theorem c9_witness : analyzeSemantic c9compA = analyzeSemantic c9compB :=
  c9_semantic_name_only c9compA c9compB rfl

/-- Claim C10: the validator computes the aspect ratio only after the
minimum-dimension check has passed, at which point the minimum dimension is
at least 10, hence positive; and any component that passes validation has
minimum dimension at least 10 and positive maximum dimension, so the later
geometric flatness ratio has a positive denominator.  The division-by-zero
branches are therefore unreachable in the pipeline order. -/
theorem c10_division_guards (comp : ComponenteAnalise) (d : ℚ) (ds : List ℚ)
    (hdims : comp.dimensoes = d :: ds) :
    ((ds.foldl max d ≤ 5000 ∧ ¬(ds.foldl min d < 10)) → 0 < ds.foldl min d) ∧
    (∀ v, validateComponentE comp = Except.ok v → v.is_valid = true →
      10 ≤ ds.foldl min d ∧ 0 < ds.foldl max d) := by
  constructor
  · rintro ⟨-, h⟩
    have h10 := not_lt.mp h
    linarith
  · intro v hv hvalid
    simp only [validateComponentE, hdims] at hv
    have hmm : ds.foldl min d ≤ ds.foldl max d :=
      le_trans (foldl_min_le_start ds d) (start_le_foldl_max ds d)
    split_ifs at hv with h1 h2 h3 h4 h5 h6 h7 h8
    all_goals injection hv with hv
    all_goals subst hv
    all_goals
      first
      | exact absurd hvalid (by decide)
      | exact ⟨not_lt.mp h2, by linarith [not_lt.mp h2]⟩

/-- Claim C10, witness at a component that passes validation. -/
theorem c10_witness :
    (0 : ℚ) < [600, 350].foldl min 800 ∧
    (10 : ℚ) ≤ [600, 350].foldl min 800 ∧ (0 : ℚ) < [600, 350].foldl max 800 := by
  refine ⟨(c10_division_guards c10comp 800 [600, 350] rfl).1
    ⟨by with_unfolding_all decide, by with_unfolding_all decide⟩, ?_⟩
  exact (c10_division_guards c10comp 800 [600, 350] rfl).2
    { is_valid := true, reason := "Componente valido", suggestions := [] }
    (by with_unfolding_all rfl) rfl

/-- Claim C4: whenever a component converts and validates successfully and
its semantic analysis says non-woodwork, the fused classification is
non-woodwork with exactly the semantic confidence and reason, whatever the
geometric, dimensional and structural results, and all four raw analyses are
attached as detail. -/
theorem c4_short_circuit (raw : RawComponent) (comp : ComponenteAnalise)
    (v : ValidationResult)
    (hc : convertToAnalysisE raw = Except.ok comp)
    (hv : validateComponentE comp = Except.ok v)
    (hvalid : v.is_valid = true)
    (hs : (analyzeSemantic comp).tipo = "nao_marcenaria") :
    analyzeComponent raw =
      { tipo_detectado := "nao_marcenaria",
        confianca := (analyzeSemantic comp).confianca,
        motivo := (analyzeSemantic comp).motivo,
        sugestoes := ["Filtrar este elemento", "Nao incluir no orcamento"],
        alternativas := [],
        detalhes := some { scores_por_analise := none,
                           semantic := analyzeSemantic comp,
                           geometric := analyzeGeometry comp,
                           dimensional := analyzeDimensions comp,
                           structural := analyzeStructure comp } } := by
  simp [analyzeComponent, analyzeComponentE, hc, hv, hvalid, combineAnalyses, hs]

/-- Claim C4, witness on the `Wall_Partition` scenario component. -/
theorem c4_witness :
    analyzeComponent wallRaw =
      { tipo_detectado := "nao_marcenaria",
        confianca := (analyzeSemantic wallComp).confianca,
        motivo := (analyzeSemantic wallComp).motivo,
        sugestoes := ["Filtrar este elemento", "Nao incluir no orcamento"],
        alternativas := [],
        detalhes := some { scores_por_analise := none,
                           semantic := analyzeSemantic wallComp,
                           geometric := analyzeGeometry wallComp,
                           dimensional := analyzeDimensions wallComp,
                           structural := analyzeStructure wallComp } } :=
  c4_short_circuit wallRaw wallComp
    { is_valid := true, reason := "Componente valido", suggestions := [] }
    (by with_unfolding_all rfl) (by with_unfolding_all rfl) rfl
    (by with_unfolding_all rfl)

/-- Claim C5, counterexample: on `borderComp` the cabinet type scores
exactly 0.3 in the dimensional analyzer, yet it is discarded — the analyzer
returns `indefinido` with confidence 0.1 and no alternatives, so a type
scoring exactly 0.3 is not retained. -/
theorem c5_counterexample :
    (scoreFor armarioEntry borderComp).1 = 3/10 ∧
    analyzeDimensions borderComp =
      { tipo := "indefinido", confianca := 1/10,
        motivo := "Dimensoes nao compativeis com tipos conhecidos",
        alternativas := [] } ∧
    (analyzeDimensions borderComp).tipo ≠ "armario" := by
  with_unfolding_all decide

/-- Claim C5, amended: exactly the knowledge-base types whose total weighted
score is strictly above 0.3 survive (a type scoring exactly 0.3 is
discarded); survivors are ranked descending by score, the top one is
returned with confidence `min(score, 0.9)` and at most two runners-up as
alternatives; with no survivor the result is `indefinido` with confidence
0.1. -/
theorem c5_amended (comp : ComponenteAnalise) (_h3 : 3 ≤ comp.dimensoes.length) :
    (∀ x, x ∈ rankedMatches comp ↔ x ∈ scoredTypes comp ∧ 3/10 < x.2.1) ∧
    (rankedMatches comp).Sorted scoreGE ∧
    (rankedMatches comp = [] →
      analyzeDimensions comp =
        { tipo := "indefinido", confianca := 1/10,
          motivo := "Dimensoes nao compativeis com tipos conhecidos",
          alternativas := [] }) ∧
    (∀ best rest, rankedMatches comp = best :: rest →
      analyzeDimensions comp =
        { tipo := best.1, confianca := min best.2.1 (9/10),
          motivo := "Dimensoes compativeis: " ++ String.intercalate ", " best.2.2,
          alternativas := (rest.take 2).map (fun x => x.1) }) := by
  refine ⟨?_, ?_, ?_, ?_⟩
  · intro x
    rw [rankedMatches]
    simp [List.mem_filter]
  · rw [rankedMatches]
    exact List.sorted_insertionSort scoreGE _
  · intro h
    unfold analyzeDimensions
    rw [h]
  · intro best rest h
    unfold analyzeDimensions
    rw [h]

/-- Claim C5, witness: on the cube component every type scores at most 0.3,
no match survives, and the analyzer answers `indefinido`. -/
theorem c5_witness :
    3 ≤ c5wComp.dimensoes.length ∧
    analyzeDimensions c5wComp =
      { tipo := "indefinido", confianca := 1/10,
        motivo := "Dimensoes nao compativeis com tipos conhecidos",
        alternativas := [] } :=
  ⟨by with_unfolding_all decide,
   (c5_amended c5wComp (by with_unfolding_all decide)).2.2.1
     (by with_unfolding_all rfl)⟩

/-- The statistics loop never changes the `total` field. -/
theorem updateStats_total (st : Estatisticas) (r : ClassificationResult) :
    (updateStats st r).total = st.total := by
  rw [updateStats]
  split_ifs <;> rfl

/-- The statistics loop never changes the mean-confidence field. -/
theorem updateStats_media (st : Estatisticas) (r : ClassificationResult) :
    (updateStats st r).confianca_media = st.confianca_media := by
  rw [updateStats]
  split_ifs <;> rfl

/-- One loop step adds one to `validos` exactly on the valid results. -/
theorem updateStats_validos (st : Estatisticas) (r : ClassificationResult) :
    (updateStats st r).validos =
      if isValidResult r then st.validos + 1 else st.validos := by
  rw [updateStats]
  split_ifs <;> rfl

/-- Folding the statistics loop preserves `total`. -/
theorem foldl_updateStats_total (rs : List ClassificationResult) :
    ∀ st : Estatisticas, (rs.foldl updateStats st).total = st.total := by
  induction rs with
  | nil => intro st; rfl
  | cons r rs ih =>
    intro st
    rw [List.foldl_cons, ih, updateStats_total]

/-- Folding the statistics loop preserves the mean-confidence field. -/
theorem foldl_updateStats_media (rs : List ClassificationResult) :
    ∀ st : Estatisticas, (rs.foldl updateStats st).confianca_media = st.confianca_media := by
  induction rs with
  | nil => intro st; rfl
  | cons r rs ih =>
    intro st
    rw [List.foldl_cons, ih, updateStats_media]

/-- Folding the statistics loop counts exactly the valid results. -/
theorem foldl_updateStats_validos (rs : List ClassificationResult) :
    ∀ st : Estatisticas,
      (rs.foldl updateStats st).validos =
        st.validos + (rs.filter isValidResult).length := by
  induction rs with
  | nil => intro st; simp
  | cons r rs ih =>
    intro st
    rw [List.foldl_cons, ih, updateStats_validos, List.filter_cons]
    cases h : isValidResult r
    · simp [h]
    · simp only [h, if_true, List.length_cons]
      omega

/-- Claim C6: the per-component fault boundary — any fault inside the
conversion/validation/analysis pipeline is converted into the `erro` result
carrying the fault message with the generic remediation suggestions, and
`analyze_batch` always completes, producing one result per input and
statistics whose total is the input count. -/
theorem c6_fault_boundary :
    (∀ (raw : RawComponent) (e : String),
      analyzeComponentE raw = Except.error e →
      analyzeComponent raw =
        { tipo_detectado := "erro", confianca := 0,
          motivo := "Erro na analise: " ++ e,
          sugestoes := ["Verificar formato do arquivo", "Tentar novamente"] }) ∧
    (∀ componentes : List RawComponent,
      (analyzeBatch componentes).resultados.length = componentes.length ∧
      (analyzeBatch componentes).estatisticas.total = componentes.length) := by
  constructor
  · intro raw e h
    simp [analyzeComponent, h]
  · intro comps
    constructor
    · rw [analyzeBatch]
      simp
    · rw [analyzeBatch]
      dsimp only
      split <;> simp [foldl_updateStats_total]

/-- Claim C6, witness: a raw record with an empty supplied dimension tuple
faults in conversion, is reported as `erro`, and a batch containing it still
completes with the right total. -/
theorem c6_witness :
    analyzeComponentE badRaw = Except.error "tuple index out of range" ∧
    analyzeComponent badRaw =
      { tipo_detectado := "erro", confianca := 0,
        motivo := "Erro na analise: " ++ "tuple index out of range",
        sugestoes := ["Verificar formato do arquivo", "Tentar novamente"] } ∧
    (analyzeBatch [badRaw]).estatisticas.total = [badRaw].length :=
  ⟨by with_unfolding_all rfl,
   c6_fault_boundary.1 badRaw "tuple index out of range" (by with_unfolding_all rfl),
   (c6_fault_boundary.2 [badRaw]).2⟩

/-- Claim C7: conversion recomputes the volume from the first three final
dimensions (mm³ to m³), ignores any supplied volume, derives the dimensions
from the vertex bounding box whenever vertices are present (overriding any
supplied dimensions), and falls back to the `(100, 100, 100)` mm default —
volume 0.001 m³ — when both vertices and supplied dimensions are absent. -/
theorem c7_conversion (raw : RawComponent) :
    (∀ v, convertToAnalysisE { raw with volume_m3 := v } = convertToAnalysisE raw) ∧
    (raw.vertices ≠ [] → ∀ dsup,
      convertToAnalysisE { raw with dimensoes := dsup } = convertToAnalysisE raw) ∧
    (∀ comp, convertToAnalysisE raw = Except.ok comp →
      comp.volume_m3 =
        comp.dimensoes.getD 0 0 * comp.dimensoes.getD 1 0 * comp.dimensoes.getD 2 0
          / 1000000000 ∧
      (raw.vertices ≠ [] → comp.dimensoes = bboxDims raw.vertices) ∧
      (raw.vertices = [] ∧ raw.dimensoes = none →
        comp.dimensoes = [100, 100, 100] ∧ comp.volume_m3 = 1/1000)) := by
  obtain ⟨nome, area, vol, verts, dims, fcs⟩ := raw
  refine ⟨fun v => rfl, ?_, ?_⟩
  · intro hne dsup
    cases verts with
    | nil => exact absurd rfl hne
    | cons p ps => rfl
  · intro comp hcomp
    cases verts with
    | cons p ps =>
      simp only [convertToAnalysisE, bboxDims] at hcomp
      injection hcomp with hcomp
      subst hcomp
      refine ⟨rfl, fun _ => ?_, ?_⟩
      · simp [bboxDims]
      · rintro ⟨h, -⟩
        exact absurd h (List.cons_ne_nil p ps)
    | nil =>
      cases dims with
      | none =>
        simp only [convertToAnalysisE, Option.getD] at hcomp
        injection hcomp with hcomp
        subst hcomp
        refine ⟨rfl, fun hne => absurd rfl hne, fun _ => ⟨rfl, by norm_num⟩⟩
      | some l =>
        rcases l with - | ⟨a, - | ⟨b, - | ⟨c, rest⟩⟩⟩
        · simp [convertToAnalysisE] at hcomp
        · simp [convertToAnalysisE] at hcomp
        · simp [convertToAnalysisE] at hcomp
        · simp only [convertToAnalysisE, Option.getD] at hcomp
          injection hcomp with hcomp
          subst hcomp
          refine ⟨rfl, fun hne => absurd rfl hne, ?_⟩
          rintro ⟨-, hnone⟩
          exact absurd hnone (by simp)

/-- Claim C7, witness: empty vertex list and no supplied dimensions give the
default dimensions and volume 0.001 m³, and conversion succeeds. -/
theorem c7_witness :
    convertToAnalysisE c7raw = Except.ok c7comp ∧
    c7comp.dimensoes = [100, 100, 100] ∧ c7comp.volume_m3 = 1/1000 := by
  have h := (c7_conversion c7raw).2.2 c7comp (by with_unfolding_all rfl)
  exact ⟨by with_unfolding_all rfl, h.2.2 ⟨rfl, rfl⟩⟩

/-- Claim C8: in `analyze_batch` the valid count is exactly the number of
results whose detected type is neither `invalido` nor `erro`, and the
reported mean confidence is the arithmetic mean of the confidences over
exactly those results (0.0 when there are none). -/
theorem c8_batch_mean (componentes : List RawComponent) :
    (analyzeBatch componentes).estatisticas.validos =
      ((analyzeBatch componentes).resultados.filter isValidResult).length ∧
    (analyzeBatch componentes).estatisticas.confianca_media =
      (if 0 < ((analyzeBatch componentes).resultados.filter isValidResult).length then
        (((analyzeBatch componentes).resultados.filter isValidResult).map
            (fun r => r.confianca)).sum /
          ((((analyzeBatch componentes).resultados.filter isValidResult).length : ℕ) : ℚ)
      else (0 : ℚ)) := by
  have hval := foldl_updateStats_validos (componentes.map analyzeComponent)
    { total := componentes.length, validos := 0, marcenaria := 0,
      nao_marcenaria := 0, indefinidos := 0, tipos_detectados := [],
      confianca_media := 0 }
  rw [Nat.zero_add] at hval
  rw [analyzeBatch]
  dsimp only
  split
  next hpos =>
    refine ⟨hval, ?_⟩
    rw [if_pos (hval ▸ hpos)]
    simp
  next hneg =>
    refine ⟨hval, ?_⟩
    rw [if_neg (fun hlen => hneg (hval ▸ hlen))]
    rw [foldl_updateStats_media]
